import Mathlib

/-!
Verification development for the image-captioning training core
(codes/utils.py, codes/bahdanau_attention_model.py).

The Python source is shallowly embedded: pure tensor computations become
Lean functions over lists and rationals, the stateful training loop becomes
explicit state passing, and the numeric kernels delegated to the external
execution engine (dense layers, LSTM cells, the cross-entropy primitive)
are abstracted as function parameters of the embedding.
-/

/-! ### Python string comparison
utils.model_training_validation compares rounded validation losses as
Python strings.  Python orders strings lexicographically by code point,
with a proper prefix ordered before its extension; pyStrLt embeds exactly
that order on the code points of the two strings. -/

def pyStrLtChars : List Char → List Char → Bool
  | [], [] => false
  | [], _ :: _ => true
  | _ :: _, [] => false
  | c :: cs, d :: ds =>
    if c.toNat < d.toNat then true
    else if d.toNat < c.toNat then false
    else pyStrLtChars cs ds

def pyStrLt (a b : String) : Bool :=
  pyStrLtChars a.toList b.toList

/-! ### Training loop controller
Embeds the checkpoint / early-stopping state machine at the end of each
epoch body in utils.model_training_validation (lines 380-408).  The
per-epoch validation loss enters that code only as the Python string
str(round(validation_loss.result().numpy(), 3)), and the stored best value
is such a string as well, so the controller is embedded over those
strings. -/

structure CtrlState where
  checkpoint_count : Nat
  best_validation_loss : Option String

/-- One end-of-epoch checkpoint decision.  Returns the new state, whether
manager.save() ran this epoch, and whether the epoch loop continues
(false = the break statement ran).  The source condition is
best_validation_loss > current, i.e. current < best in Python string
order. -/
def ctrlStep (st : CtrlState) (current : String) : CtrlState × Bool × Bool :=
  match st.best_validation_loss with
  | none =>
    ({ checkpoint_count := 0, best_validation_loss := some current }, true, true)
  | some best =>
    if pyStrLt current best then
      ({ checkpoint_count := 0, best_validation_loss := some current }, true, true)
    else if st.checkpoint_count ≤ 4 then
      ({ checkpoint_count := st.checkpoint_count + 1,
         best_validation_loss := st.best_validation_loss }, false, true)
    else
      (st, false, false)

/-- Runs the epoch loop of model_training_validation over a list of
per-epoch rounded validation-loss strings (one entry per configured
epoch).  Returns (number of epochs whose bodies executed, whether the
early-stopping break fired, the per-epoch checkpoint-saved flags).  The
break sits at the end of the epoch body, after that epoch has trained and
validated, so the epoch in which it fires counts as executed. -/
def runEpochs : CtrlState → List String → Nat × Bool × List Bool
  | _, [] => (0, false, [])
  | st, current :: rest =>
    match ctrlStep st current with
    | (st2, saved, true) =>
      match runEpochs st2 rest with
      | (n, b, flags) => (n + 1, b, saved :: flags)
    | (_, saved, false) => (1, true, [saved])

/-- The synthetic per-epoch validation losses of the early-stopping test
property, as the rounded strings the controller actually handles. -/
def syntheticLosses : List String :=
  ["1.0", "0.9", "0.95", "0.95", "0.95", "0.95", "0.95", "0.95"]

/-- Parses a nonnegative decimal numeral string (the form str(round(x, 3))
produces for the losses at issue) into a rational, used to state how the
numeric order of two rounded losses relates to the string order the code
uses. -/
def parseNatAux : List Char → Nat → Option Nat
  | [], acc => some acc
  | c :: cs, acc =>
    if c.isDigit then parseNatAux cs (acc * 10 + (c.toNat - 48)) else none

/-- Splits a character list at the first decimal point, if any. -/
def splitOnDot : List Char → List Char × Option (List Char)
  | [] => ([], none)
  | c :: cs =>
    if c = '.' then ([], some cs)
    else
      let r := splitOnDot cs
      (c :: r.1, r.2)

def parseDecimal (s : String) : Option ℚ :=
  match splitOnDot s.toList with
  | (whole, none) => (parseNatAux whole 0).map (fun n => (n : ℚ))
  | (whole, some frac) =>
    match parseNatAux whole 0, parseNatAux frac 0 with
    | some w, some f => some ((w : ℚ) + (f : ℚ) / (10 : ℚ) ^ frac.length)
    | _, _ => none

/-! ### Loss function
Embeds utils.loss_function (lines 192-212).  The per-element sparse
categorical cross-entropy primitive (a transcendental float computation
performed by the external execution engine) is abstracted as a parameter
ce taking the actual token index and the logits row; the masking and
reduction structure around it is embedded exactly.  A batch is a list of
actual token indices together with a list of logits rows. -/

def reduce_mean (l : List ℚ) : ℚ :=
  l.sum / (l.length : ℚ)

def loss_function (ce : ℕ → List ℚ → ℚ)
    (actual_values : List ℕ) (predicted_values : List (List ℚ)) : ℚ :=
  let mask : List Bool := actual_values.map (fun a => !(a == 0))
  let current_loss : List ℚ := (actual_values.zip predicted_values).map (fun p => ce p.1 p.2)
  let mask_cast : List ℚ := mask.map (fun b => if b then (1 : ℚ) else 0)
  reduce_mean (List.zipWith (fun l m => l * m) current_loss mask_cast)

/-- Modelled from the words of the spec: mean over the batch of the
cross-entropy contributions, where a position whose target token equals
the pad value 0 contributes 0.  Stated separately from loss_function so
the two can be compared. -/
def masked_ce_mean (ce : ℕ → List ℚ → ℚ)
    (actual_values : List ℕ) (predicted_values : List (List ℚ)) : ℚ :=
  reduce_mean ((actual_values.zip predicted_values).map
    (fun p => if p.1 = 0 then 0 else ce p.1 p.2))

/-! ### Training and validation steps
Embeds utils.train_step (lines 215-254) and utils.validation_step
(lines 257-284).  The encoder, decoder, optimizer-gradient update and the
cross-entropy primitive are abstract parameters collected in ModelEnv; the
trainable variables of encoder and decoder are an abstract state θ
threaded explicitly (the Python code holds them in module-global model
objects).  A caption batch is a list of rows of token indices; column i of
it is the tensor target_batch[:, i]. -/

structure ModelEnv (θ φ τ σ : Type) where
  encoder : θ → φ → Bool → τ
  decoder : θ → List ℕ → σ → τ → Bool → List (List ℚ) × σ
  ce : ℕ → List ℚ → ℚ
  init_hidden_states : ℕ → ℕ → σ
  apply_gradients : θ → ℚ → θ

/-- Module-global mutable state of utils: the trainable variables and the
two Mean metrics (a Mean metric is modelled as the list of values handed
to it; its result is their mean). -/
structure GlobalState (θ : Type) where
  params : θ
  train_metric : List ℚ
  validation_metric : List ℚ

/-- The tensor column target_batch[:, i]. -/
def column (target_batch : List (List ℕ)) (i : ℕ) : List ℕ :=
  target_batch.map (fun row => row.getD i 0)

/-- target_batch.shape[1], the padded caption length including the leading
start token. -/
def tensorWidth (target_batch : List (List ℕ)) : ℕ :=
  (target_batch.headD []).length

/-- Accumulator of the per-timestep decoding loop shared by train_step and
validation_step: running loss sum, number of decoder invocations so far,
current decoder input batch, current decoder hidden states. -/
structure LoopAcc (σ : Type) where
  loss : ℚ
  steps : ℕ
  decoder_input : List ℕ
  states : σ

/-- Body of the loop for i in range(1, target_batch.shape[1]): invoke the
decoder, add the masked loss against column i, teacher-force column i as
the next decoder input. -/
def decodeBody (env : ModelEnv θ φ τ σ) (p : θ) (encoder_out : τ)
    (target_batch : List (List ℕ)) (training : Bool)
    (acc : LoopAcc σ) (i : ℕ) : LoopAcc σ :=
  let r := env.decoder p acc.decoder_input acc.states encoder_out training
  { loss := acc.loss + loss_function env.ce (column target_batch i) r.1,
    steps := acc.steps + 1,
    decoder_input := column target_batch i,
    states := r.2 }

/-- The decoding loop of train_step / validation_step: hidden states are
initialized per batch, the first decoder input is the start token for
every row, then the loop runs over i = 1 .. shape[1]-1.  Returns the
accumulated loss and the number of decoder invocations. -/
def decode_loop (env : ModelEnv θ φ τ σ) (p : θ) (encoder_out : τ)
    (target_batch : List (List ℕ)) (start_token_index rnn_size : ℕ)
    (training : Bool) : ℚ × ℕ :=
  let batch_size := target_batch.length
  let acc0 : LoopAcc σ :=
    { loss := 0, steps := 0,
      decoder_input := List.replicate batch_size start_token_index,
      states := env.init_hidden_states batch_size rnn_size }
  let r := (List.range' 1 (tensorWidth target_batch - 1)).foldl
    (decodeBody env p encoder_out target_batch training) acc0
  (r.loss, r.steps)

/-- utils.train_step: unrolls the decoder with training=True inside the
gradient tape, applies the optimizer update to the trainable variables,
and records loss / target_batch.shape[1] in the train_loss metric. -/
def train_step (env : ModelEnv θ φ τ σ) (input_batch : φ)
    (target_batch : List (List ℕ)) (start_token_index rnn_size : ℕ)
    (g : GlobalState θ) : GlobalState θ :=
  let encoder_out := env.encoder g.params input_batch true
  let loss := (decode_loop env g.params encoder_out target_batch
    start_token_index rnn_size true).1
  let batch_loss := loss / (tensorWidth target_batch : ℚ)
  { params := env.apply_gradients g.params loss,
    train_metric := g.train_metric ++ [batch_loss],
    validation_metric := g.validation_metric }

/-- utils.validation_step: the same unrolling with training=False, no
gradient computation and no optimizer update; records
loss / target_batch.shape[1] in the validation_loss metric. -/
def validation_step (env : ModelEnv θ φ τ σ) (input_batch : φ)
    (target_batch : List (List ℕ)) (start_token_index rnn_size : ℕ)
    (g : GlobalState θ) : GlobalState θ :=
  let encoder_out := env.encoder g.params input_batch false
  let loss := (decode_loop env g.params encoder_out target_batch
    start_token_index rnn_size false).1
  let batch_loss := loss / (tensorWidth target_batch : ℚ)
  { params := g.params,
    train_metric := g.train_metric,
    validation_metric := g.validation_metric ++ [batch_loss] }

/-! ### Dataset conversion
Embeds utils.convert_dataset (lines 99-120) and the behaviour of
tf.keras.preprocessing.sequence.pad_sequences with padding=post and no
maxlen argument: every kept caption is padded at its end with 0 up to the
length of the longest kept caption.  The input dataset is the list of
(image id, tokenized caption) pairs. -/

def pad_sequences (captions : List (List ℕ)) : List (List ℕ) :=
  let maxlen := (captions.map List.length).foldr max 0
  captions.map (fun s => s ++ List.replicate (maxlen - s.length) 0)

def convert_dataset (dataset : List (ℕ × List ℕ)) : List ℕ × List (List ℕ) :=
  let kept := dataset.filter (fun p => p.2.length ≤ 40)
  (kept.map Prod.fst, pad_sequences (kept.map Prod.snd))

/-- The captions convert_dataset keeps, before padding. -/
def keptCaptions (dataset : List (ℕ × List ℕ)) : List (List ℕ) :=
  (dataset.filter (fun p => p.2.length ≤ 40)).map Prod.snd

/-- The width pad_sequences pads to: the longest kept caption length. -/
def padWidth (dataset : List (ℕ × List ℕ)) : ℕ :=
  ((keptCaptions dataset).map List.length).foldr max 0

/-! ### Dataset batching
Embeds utils.shuffle_slice_dataset (lines 142-154).  The shuffle is an
arbitrary order-changing function supplied as a parameter; batching with
drop_remainder=True keeps only full batches of batch_size elements. -/

def batchDrop (batch_size : ℕ) (l : List γ) : List (List γ) :=
  if h : 0 < batch_size ∧ batch_size ≤ l.length then
    l.take batch_size :: batchDrop batch_size (l.drop batch_size)
  else []
termination_by l.length
decreasing_by
  simp only [List.length_drop]
  omega

def shuffle_slice_dataset (image_ids : List α) (captions : List β)
    (shuffle : List (α × β) → List (α × β)) (batch_size : ℕ) :
    List (List (α × β)) :=
  batchDrop batch_size (shuffle (image_ids.zip captions))

/-! ### Bahdanau decoders
Embeds bahdanau_attention_model.BahdanauDecoder1/2/3.  Tensors are an
abstract type τ; the learned layers of each decoder instance (attention,
embedding, the LSTM layers, the final dense projection, dropout) are
abstract functions, and the TensorFlow tensor operations used by the call
methods are collected in TF.  Each LSTM layer is invoked by the source on
its input sequence alone, with no initial_state argument, so it is a
function of its input only; it returns (sequence output, final hidden
state h, final cell state c). -/

structure TF (τ : Type) where
  expand_dims : τ → τ
  concat : τ → τ → τ
  reshape : τ → τ
  zeros : ℕ → ℕ → τ

structure BahdanauDecoder1 (τ : Type) where
  attention_layer : τ → τ → τ → τ
  embedding_layer : τ → τ
  rnn_layer : τ → τ × τ × τ
  dense_layer : τ → τ
  dropout_layer : τ → Bool → τ

structure BahdanauDecoder2 (τ : Type) where
  attention_layer : τ → τ → τ → τ
  embedding_layer : τ → τ
  rnn_layer_1 : τ → τ × τ × τ
  rnn_layer_2 : τ → τ × τ × τ
  dense_layer : τ → τ
  dropout_layer : τ → Bool → τ

structure BahdanauDecoder3 (τ : Type) where
  attention_layer : τ → τ → τ → τ
  embedding_layer : τ → τ
  rnn_layer_1 : τ → τ × τ × τ
  rnn_layer_2 : τ → τ × τ × τ
  rnn_layer_3 : τ → τ × τ × τ
  dense_layer : τ → τ
  dropout_layer : τ → Bool → τ

def BahdanauDecoder1.call [Inhabited τ] (tfo : TF τ) (M : BahdanauDecoder1 τ)
    (x : τ) (hidden_states : List τ) (encoder_out : τ) (training : Bool) :
    τ × List τ :=
  let context_vector := M.attention_layer encoder_out
    (hidden_states.getD 0 default) (hidden_states.getD 1 default)
  let x := M.embedding_layer x
  let x := tfo.concat (tfo.expand_dims context_vector) x
  let (x, hidden_state_h, hidden_state_c) := M.rnn_layer x
  let x := M.dropout_layer x training
  let x := tfo.reshape x
  let x := M.dense_layer x
  (x, [hidden_state_h, hidden_state_c])

def BahdanauDecoder2.call [Inhabited τ] (tfo : TF τ) (M : BahdanauDecoder2 τ)
    (x : τ) (hidden_states : List τ) (encoder_out : τ) (training : Bool) :
    τ × List τ :=
  let context_vector := M.attention_layer encoder_out
    (hidden_states.getD 0 default) (hidden_states.getD 1 default)
  let x := M.embedding_layer x
  let x := tfo.concat (tfo.expand_dims context_vector) x
  let (x, hidden_state_h, hidden_state_c) := M.rnn_layer_1 x
  let x := M.dropout_layer x training
  let x := tfo.concat (tfo.expand_dims context_vector) x
  let (x, hidden_state_h, hidden_state_c) := M.rnn_layer_2 x
  let x := M.dropout_layer x training
  let x := tfo.reshape x
  let x := M.dense_layer x
  (x, [hidden_state_h, hidden_state_c])

def BahdanauDecoder3.call [Inhabited τ] (tfo : TF τ) (M : BahdanauDecoder3 τ)
    (x : τ) (hidden_states : List τ) (encoder_out : τ) (training : Bool) :
    τ × List τ :=
  let context_vector := M.attention_layer encoder_out
    (hidden_states.getD 0 default) (hidden_states.getD 1 default)
  let x := M.embedding_layer x
  let x := tfo.concat (tfo.expand_dims context_vector) x
  let (x, hidden_state_h, hidden_state_c) := M.rnn_layer_1 x
  let x := M.dropout_layer x training
  let x := tfo.concat (tfo.expand_dims context_vector) x
  let (x, hidden_state_h, hidden_state_c) := M.rnn_layer_2 x
  let x := M.dropout_layer x training
  let x := tfo.concat (tfo.expand_dims context_vector) x
  let (x, hidden_state_h, hidden_state_c) := M.rnn_layer_3 x
  let x := M.dropout_layer x training
  let x := tfo.reshape x
  let x := M.dense_layer x
  (x, [hidden_state_h, hidden_state_c])

/-- The depth-2 call instrumented to record, next to its ordinary result,
the tensor handed to tf.concat as first component at each of the two
injection sites (tf.expand_dims(context_vector, 1) before rnn_layer_1 and
before rnn_layer_2). -/
def BahdanauDecoder2.call_ctx [Inhabited τ] (tfo : TF τ)
    (M : BahdanauDecoder2 τ) (x : τ) (hidden_states : List τ)
    (encoder_out : τ) (training : Bool) : (τ × List τ) × List τ :=
  let context_vector := M.attention_layer encoder_out
    (hidden_states.getD 0 default) (hidden_states.getD 1 default)
  let x := M.embedding_layer x
  let injected_1 := tfo.expand_dims context_vector
  let x := tfo.concat injected_1 x
  let (x, hidden_state_h, hidden_state_c) := M.rnn_layer_1 x
  let x := M.dropout_layer x training
  let injected_2 := tfo.expand_dims context_vector
  let x := tfo.concat injected_2 x
  let (x, hidden_state_h, hidden_state_c) := M.rnn_layer_2 x
  let x := M.dropout_layer x training
  let x := tfo.reshape x
  let x := M.dense_layer x
  ((x, [hidden_state_h, hidden_state_c]), [injected_1, injected_2])

/-- The depth-3 call instrumented the same way at its three injection
sites. -/
def BahdanauDecoder3.call_ctx [Inhabited τ] (tfo : TF τ)
    (M : BahdanauDecoder3 τ) (x : τ) (hidden_states : List τ)
    (encoder_out : τ) (training : Bool) : (τ × List τ) × List τ :=
  let context_vector := M.attention_layer encoder_out
    (hidden_states.getD 0 default) (hidden_states.getD 1 default)
  let x := M.embedding_layer x
  let injected_1 := tfo.expand_dims context_vector
  let x := tfo.concat injected_1 x
  let (x, hidden_state_h, hidden_state_c) := M.rnn_layer_1 x
  let x := M.dropout_layer x training
  let injected_2 := tfo.expand_dims context_vector
  let x := tfo.concat injected_2 x
  let (x, hidden_state_h, hidden_state_c) := M.rnn_layer_2 x
  let x := M.dropout_layer x training
  let injected_3 := tfo.expand_dims context_vector
  let x := tfo.concat injected_3 x
  let (x, hidden_state_h, hidden_state_c) := M.rnn_layer_3 x
  let x := M.dropout_layer x training
  let x := tfo.reshape x
  let x := M.dense_layer x
  ((x, [hidden_state_h, hidden_state_c]), [injected_1, injected_2, injected_3])

/-! ### Model testing
Embeds utils.model_testing (lines 411-437).  A checkpoint stores a value
of the parameter state θ; the checkpoint directory is the list of saved
snapshots, most recent first.  tf.train.latest_checkpoint yields the most
recent snapshot path or None when the directory holds none; per the
documented TensorFlow semantics, tf.train.Checkpoint.restore applied to
None performs no restore and raises no error, leaving the freshly
initialized parameters in place. -/

def tf_latest_checkpoint (saved : List θ) : Option θ :=
  saved.head?

def tf_restore (fresh : θ) : Option θ → θ
  | none => fresh
  | some p => p

def model_testing (env : ModelEnv θ φ τ σ) (fresh : θ) (saved : List θ)
    (test_dataset : List (φ × List (List ℕ)))
    (test_steps start_token_index rnn_size : ℕ) : GlobalState θ :=
  let g0 : GlobalState θ :=
    { params := tf_restore fresh (tf_latest_checkpoint saved),
      train_metric := [], validation_metric := [] }
  (test_dataset.take test_steps).foldl
    (fun g b => validation_step env b.1 b.2 start_token_index rnn_size g) g0

/-! ### Concrete instances used for witnesses and counterexamples -/

/-- A one-unit environment in which every decoder call contributes loss 1
per unmasked position: the cross-entropy primitive is the constant 1 and
the decoder emits one logits row. -/
def envC2 : ModelEnv Unit Unit Unit Unit where
  encoder := fun _ _ _ => ()
  decoder := fun _ _ _ _ _ => ([[0]], ())
  ce := fun _ _ => 1
  init_hidden_states := fun _ _ => ()
  apply_gradients := fun p _ => p

def gC2 : GlobalState Unit :=
  { params := (), train_metric := [], validation_metric := [] }

/-- An environment whose parameter state is a natural number, to observe
whether the parameters of a run change. -/
def envTest : ModelEnv ℕ Unit Unit Unit where
  encoder := fun _ _ _ => ()
  decoder := fun _ _ _ _ _ => ([[0]], ())
  ce := fun _ _ => 1
  init_hidden_states := fun _ _ => ()
  apply_gradients := fun p _ => p + 1

def gTest : GlobalState ℕ :=
  { params := 5, train_metric := [], validation_metric := [] }

/-- Concrete tensor operations over ℕ for evaluating the decoder calls. -/
def tfN : TF ℕ where
  expand_dims := fun a => a
  concat := fun a b => a + b
  reshape := fun a => a
  zeros := fun _ _ => 0

/-- A concrete depth-2 decoder whose two LSTM layers return the marker
states (100, 101) and (200, 201), to observe which states the call
returns. -/
def M2N : BahdanauDecoder2 ℕ where
  attention_layer := fun e h c => e + h + c
  embedding_layer := fun a => 2 * a
  rnn_layer_1 := fun z => (z + 1, 100, 101)
  rnn_layer_2 := fun z => (z + 2, 200, 201)
  dense_layer := fun a => a + 5
  dropout_layer := fun a _ => a

/-! ## Theorems -/

/-- Helper: the decoding loop performs one decoder invocation per index of
the driving list. -/
theorem foldl_decodeBody_steps (env : ModelEnv θ φ τ σ) (p : θ) (eo : τ)
    (tgt : List (List ℕ)) (tr : Bool) :
    ∀ (l : List ℕ) (acc : LoopAcc σ),
      (l.foldl (decodeBody env p eo tgt tr) acc).steps = acc.steps + l.length := by
  intro l
  induction l with
  | nil => intro acc; simp
  | cons i l ih =>
    intro acc
    rw [List.foldl_cons, ih]
    simp only [decodeBody, List.length_cons]
    omega

/-- Helper: the decoding loop with training=False depends on the
environment only through the training=False behaviour of the decoder and
the cross-entropy kernel. -/
theorem foldl_decodeBody_congr (env env' : ModelEnv θ φ τ σ) (p : θ) (eo : τ)
    (tgt : List (List ℕ))
    (hdec : ∀ q a st e, env.decoder q a st e false = env'.decoder q a st e false)
    (hce : env.ce = env'.ce) :
    ∀ (l : List ℕ) (acc : LoopAcc σ),
      l.foldl (decodeBody env p eo tgt false) acc
        = l.foldl (decodeBody env' p eo tgt false) acc := by
  intro l
  induction l with
  | nil => intro acc; rfl
  | cons i l ih =>
    intro acc
    rw [List.foldl_cons, List.foldl_cons]
    have hb : decodeBody env p eo tgt false acc i
        = decodeBody env' p eo tgt false acc i := by
      simp only [decodeBody, hdec, hce]
    rw [hb]
    exact ih _

theorem decode_loop_false_congr (env env' : ModelEnv θ φ τ σ) (p : θ)
    (eo : τ) (tgt : List (List ℕ)) (s r : ℕ)
    (hdec : ∀ q a st e, env.decoder q a st e false = env'.decoder q a st e false)
    (hce : env.ce = env'.ce)
    (hinit : env.init_hidden_states = env'.init_hidden_states) :
    decode_loop env p eo tgt s r false = decode_loop env' p eo tgt s r false := by
  simp only [decode_loop]
  rw [hinit, foldl_decodeBody_congr env env' p eo tgt hdec hce]

/-- Helper: elementwise, multiplying the cross-entropy vector with the
0/1 mask built from (token == pad) equals zeroing the pad positions. -/
theorem masked_list_eq (ce : ℕ → List ℚ → ℚ) :
    ∀ (a : List ℕ) (p : List (List ℚ)),
      List.zipWith (fun l m => l * m)
        ((a.zip p).map (fun q => ce q.1 q.2))
        ((a.map (fun t => !(t == 0))).map (fun b => if b then (1 : ℚ) else 0))
      = (a.zip p).map (fun q => if q.1 = 0 then 0 else ce q.1 q.2) := by
  intro a
  induction a with
  | nil => intro p; rfl
  | cons t ts ih =>
    intro p
    cases p with
    | nil => rfl
    | cons q ps =>
      simp only [List.zip_cons_cons, List.map_cons, List.zipWith_cons_cons, ih]
      congr 1
      by_cases ht : t = 0
      · simp [ht]
      · simp [ht]

/-- Helper: every member is bounded by the foldr-max. -/
theorem le_foldr_max (l : List ℕ) : ∀ x ∈ l, x ≤ l.foldr max 0 := by
  induction l with
  | nil => intro x hx; cases hx
  | cons a l ih =>
    intro x hx
    rcases List.mem_cons.mp hx with rfl | hx2
    · exact le_max_left _ _
    · exact le_trans (ih x hx2) (le_max_right _ _)

/-- Helper: the foldr-max of a bounded list is bounded. -/
theorem foldr_max_le (l : List ℕ) (m : ℕ) (h : ∀ x ∈ l, x ≤ m) :
    l.foldr max 0 ≤ m := by
  induction l with
  | nil => exact Nat.zero_le m
  | cons a l ih =>
    simp only [List.foldr_cons]
    exact max_le (h a (List.mem_cons_self _ _))
      (ih (fun x hx => h x (List.mem_cons_of_mem _ hx)))

/-- Helper: padding each sequence of a list up to a common bound W makes
every length exactly W. -/
theorem map_length_pad (W : ℕ) :
    ∀ (l : List (List ℕ)), (∀ s ∈ l, s.length ≤ W) →
      (l.map (fun s => s ++ List.replicate (W - s.length) 0)).map List.length
        = List.replicate l.length W := by
  intro l
  induction l with
  | nil => intro _; rfl
  | cons s l ih =>
    intro h
    simp only [List.map_cons, List.length_cons, List.replicate_succ]
    rw [ih (fun x hx => h x (List.mem_cons_of_mem _ hx))]
    congr 1
    have hs := h s (List.mem_cons_self _ _)
    simp only [List.length_append, List.length_replicate]
    omega

/-- Helper: one unfolding of the batching recursion. -/
theorem batchDrop_unfold {γ : Type} (b : ℕ) (l : List γ) :
    batchDrop b l
      = if 0 < b ∧ b ≤ l.length then l.take b :: batchDrop b (l.drop b)
        else [] := by
  rw [batchDrop]
  by_cases h : 0 < b ∧ b ≤ l.length
  · rw [dif_pos h, if_pos h]
  · rw [dif_neg h, if_neg h]

/-- Helper: every batch produced by batchDrop has exactly b elements. -/
theorem batchDrop_mem_length {γ : Type} (b : ℕ) :
    ∀ (n : ℕ) (l : List γ), l.length ≤ n →
      ∀ c ∈ batchDrop b l, c.length = b := by
  intro n
  induction n with
  | zero =>
    intro l hl c hc
    have hnil : l = [] := List.length_eq_zero.mp (Nat.le_zero.mp hl)
    subst hnil
    rw [batchDrop_unfold] at hc
    simp only [List.length_nil] at hc
    rw [if_neg (by omega : ¬ (0 < b ∧ b ≤ 0))] at hc
    cases hc
  | succ n ih =>
    intro l hl c hc
    rw [batchDrop_unfold] at hc
    by_cases hcond : 0 < b ∧ b ≤ l.length
    · rw [if_pos hcond] at hc
      rcases List.mem_cons.mp hc with rfl | hc2
      · simp only [List.length_take]
        omega
      · refine ih (l.drop b) ?_ c hc2
        simp only [List.length_drop]
        omega
    · rw [if_neg hcond] at hc
      cases hc

/-- C1 (amended): on the synthetic loss sequence
[1.0, 0.9, 0.95, 0.95, 0.95, 0.95, 0.95, 0.95] the controller executes
exactly 8 epochs and the early-stopping break fires during the 8th epoch
(checkpoint_count reaches 5 at the end of epoch 7, and the break — placed
after the epoch body — ends the loop at the end of epoch 8), whatever
losses would follow and however many further epochs are configured:
checkpoints are saved in epochs 1 and 2 only. -/
theorem C1_early_stopping_amended (rest : List String) :
    runEpochs { checkpoint_count := 0, best_validation_loss := none }
      (syntheticLosses ++ rest)
      = (8, true, [true, true, false, false, false, false, false, false]) := rfl

/-- C1 counterexample: on the synthetic loss sequence the number of
executed epochs is 8, not 7, so training does not stop before an 8th
epoch is executed. -/
theorem C1_counterexample :
    (runEpochs { checkpoint_count := 0, best_validation_loss := none }
      syntheticLosses).1 = 8
    ∧ ¬ ((runEpochs { checkpoint_count := 0, best_validation_loss := none }
      syntheticLosses).1 = 7) := by decide

/-- C4 (amended): every per-step decoder call returns a state list of
exactly two tensors — the final hidden and cell state of the LAST
recurrent layer — regardless of depth, not one (hidden, cell) pair per
layer; and for the depth-2 and depth-3 decoders the state outputs of the
earlier recurrent layers are dead: replacing them by arbitrary values
leaves the whole call result unchanged, so no per-layer recurrent state is
carried from one timestep to the next. -/
theorem C4_decoder_states_amended {τ : Type} [Inhabited τ] (tfo : TF τ)
    (M1 : BahdanauDecoder1 τ) (M2 : BahdanauDecoder2 τ)
    (M3 : BahdanauDecoder3 τ) (x : τ) (hs : List τ) (e : τ) (t : Bool) :
    (BahdanauDecoder1.call tfo M1 x hs e t).2.length = 2
    ∧ (BahdanauDecoder2.call tfo M2 x hs e t).2.length = 2
    ∧ (BahdanauDecoder3.call tfo M3 x hs e t).2.length = 2
    ∧ (∀ f g : τ → τ,
        BahdanauDecoder2.call tfo
          { M2 with rnn_layer_1 := fun z => ((M2.rnn_layer_1 z).1, f z, g z) }
          x hs e t
        = BahdanauDecoder2.call tfo M2 x hs e t)
    ∧ (∀ f1 g1 f2 g2 : τ → τ,
        BahdanauDecoder3.call tfo
          { M3 with
            rnn_layer_1 := fun z => ((M3.rnn_layer_1 z).1, f1 z, g1 z),
            rnn_layer_2 := fun z => ((M3.rnn_layer_2 z).1, f2 z, g2 z) }
          x hs e t
        = BahdanauDecoder3.call tfo M3 x hs e t) :=
  ⟨rfl, rfl, rfl, fun _ _ => rfl, fun _ _ _ _ => rfl⟩

/-- C4 counterexample: for a concrete depth-2 decoder whose first LSTM
layer ends in states (100, 101) and whose second ends in (200, 201), the
call returns the two-element state list [200, 201]: not a list of one
pair per recurrent layer (which would hold 2 pairs, 4 tensors), and the
first layer's states appear nowhere in it. -/
theorem C4_counterexample :
    (BahdanauDecoder2.call tfN M2N 1 [3, 4] 10 false).2 = [200, 201]
    ∧ (BahdanauDecoder2.call tfN M2N 1 [3, 4] 10 false).2.length ≠ 2 * 2
    ∧ ¬ (100 ∈ (BahdanauDecoder2.call tfN M2N 1 [3, 4] 10 false).2)
    ∧ ¬ (101 ∈ (BahdanauDecoder2.call tfN M2N 1 [3, 4] 10 false).2) := by
  decide

/-- C7: within one depth-2 or depth-3 decoder step, the tensor injected
by tf.concat in front of every stacked recurrent layer is the identical
value tf.expand_dims(context_vector, 1) of the single context vector the
attention layer computed at the start of the step from the incoming
hidden states — the instrumented call records equal injected tensors at
all 2 (resp. 3) sites and agrees with the plain call. -/
theorem C7_context_reuse {τ : Type} [Inhabited τ] (tfo : TF τ)
    (M2 : BahdanauDecoder2 τ) (M3 : BahdanauDecoder3 τ)
    (x e : τ) (hs : List τ) (t : Bool) :
    (BahdanauDecoder2.call_ctx tfo M2 x hs e t).2
      = List.replicate 2 (tfo.expand_dims
          (M2.attention_layer e (hs.getD 0 default) (hs.getD 1 default)))
    ∧ (BahdanauDecoder2.call_ctx tfo M2 x hs e t).1
      = BahdanauDecoder2.call tfo M2 x hs e t
    ∧ (BahdanauDecoder3.call_ctx tfo M3 x hs e t).2
      = List.replicate 3 (tfo.expand_dims
          (M3.attention_layer e (hs.getD 0 default) (hs.getD 1 default)))
    ∧ (BahdanauDecoder3.call_ctx tfo M3 x hs e t).1
      = BahdanauDecoder3.call tfo M3 x hs e t :=
  ⟨rfl, rfl, rfl, rfl⟩

/-- C8: with an empty checkpoint directory, tf.train.latest_checkpoint
yields none, restore is a silent no-op, and model_testing still evaluates
its test batch — the validation metric receives one entry — with the
freshly initialized parameters left in place; the run does not halt
before the batch. -/
theorem C8_no_checkpoint_proceeds :
    (model_testing envTest 77 [] [((), [[5, 7]])] 1 3 1).validation_metric.length = 1
    ∧ (model_testing envTest 77 [] [((), [[5, 7]])] 1 3 1).params = 77 :=
  ⟨rfl, rfl⟩

/-- C2 (amended): for every batch of target width L = tensorWidth, both
the training and the validation step unroll the decoder over exactly L-1
timesteps (the loop indices 1 .. L-1), but the accumulated loss is divided
by L — the full padded caption length including the leading start token —
not by L-1, before being recorded in the running metric. -/
theorem C2_loss_divisor_amended (env : ModelEnv θ φ τ σ) (inp : φ)
    (tgt : List (List ℕ)) (s r : ℕ) (g : GlobalState θ) :
    (train_step env inp tgt s r g).train_metric
      = g.train_metric
        ++ [(decode_loop env g.params (env.encoder g.params inp true) tgt s r true).1
             / (tensorWidth tgt : ℚ)]
    ∧ (decode_loop env g.params (env.encoder g.params inp true) tgt s r true).2
      = tensorWidth tgt - 1
    ∧ (validation_step env inp tgt s r g).validation_metric
      = g.validation_metric
        ++ [(decode_loop env g.params (env.encoder g.params inp false) tgt s r false).1
             / (tensorWidth tgt : ℚ)]
    ∧ (decode_loop env g.params (env.encoder g.params inp false) tgt s r false).2
      = tensorWidth tgt - 1 := by
  refine ⟨rfl, ?_, rfl, ?_⟩ <;>
    simp [decode_loop, foldl_decodeBody_steps, List.length_range']

/-- C2 counterexample: in a concrete environment in which each of the two
decoder invocations on a width-3 target contributes loss 1, the recorded
batch loss is 2/3 (the accumulated loss 2 divided by L = 3), not
2/(L-1) = 2/2. -/
theorem C2_counterexample :
    decode_loop envC2 () () [[5, 7, 9]] 4 1 true = (2, 2)
    ∧ (train_step envC2 () [[5, 7, 9]] 4 1 gC2).train_metric = [2 / 3]
    ∧ ((2 : ℚ) / 3 ≠ (2 : ℚ) / 2) := by
  have hr : List.range' 1 (tensorWidth [[5, 7, 9]] - 1) = [1, 2] := rfl
  have hloss : loss_function (fun _ _ => (1 : ℚ)) [7] [[0]] = 1 := by
    norm_num [loss_function, reduce_mean]
  have hloss2 : loss_function (fun _ _ => (1 : ℚ)) [9] [[0]] = 1 := by
    norm_num [loss_function, reduce_mean]
  refine ⟨?_, ?_, by norm_num⟩
  · simp only [decode_loop, hr, List.foldl_cons, List.foldl_nil]
    simp only [decodeBody, envC2, column, List.map_cons, List.map_nil]
    norm_num [hloss, hloss2]
  · simp only [train_step, decode_loop, hr, List.foldl_cons, List.foldl_nil]
    simp only [decodeBody, envC2, column, gC2, tensorWidth, List.map_cons, List.map_nil]
    norm_num [hloss, hloss2]

/-- C3 (amended): after the first epoch, a checkpoint is saved in a given
epoch exactly when the rounded current validation loss, as a Python
string, is lexicographically (by code point) less than the stored best
string — not when it is numerically less — and on such a save the best
value is replaced by the current string and the stale counter is reset
to 0. -/
theorem C3_checkpoint_policy_amended (st : CtrlState) (b current : String)
    (h : st.best_validation_loss = some b) :
    ((ctrlStep st current).2.1 = true ↔ pyStrLt current b = true)
    ∧ ((ctrlStep st current).2.1 = true →
        (ctrlStep st current).1
          = { checkpoint_count := 0, best_validation_loss := some current }) := by
  unfold ctrlStep
  rw [h]
  by_cases hcb : pyStrLt current b
  · simp [hcb]
  · by_cases hcount : st.checkpoint_count ≤ 4
    · simp [hcb, hcount]
    · simp [hcb, hcount]

/-- C3 witness: with stored best "1.0" and current loss "0.9" the
comparison fires, a checkpoint is saved, the best value becomes "0.9" and
the counter resets. -/
theorem C3_witness :
    (((ctrlStep ⟨0, some "1.0"⟩ "0.9").2.1 = true) ↔ pyStrLt "0.9" "1.0" = true)
    ∧ ((ctrlStep ⟨0, some "1.0"⟩ "0.9").2.1 = true →
        (ctrlStep ⟨0, some "1.0"⟩ "0.9").1
          = { checkpoint_count := 0, best_validation_loss := some "0.9" }) :=
  C3_checkpoint_policy_amended ⟨0, some "1.0"⟩ "1.0" "0.9" rfl

/-- C3 counterexample: with per-epoch losses 10.0 then 9.5 the second
epoch improves numerically (9.5 < 10.0 after rounding), yet no checkpoint
is saved in it, because as Python strings "10.0" < "9.5" holds
lexicographically, so the code's comparison sees no improvement. -/
theorem C3_counterexample :
    (runEpochs { checkpoint_count := 0, best_validation_loss := none }
      ["10.0", "9.5"]).2.2 = [true, false]
    ∧ parseDecimal "9.5" = some (19 / 2 : ℚ)
    ∧ parseDecimal "10.0" = some (10 : ℚ)
    ∧ ((19 : ℚ) / 2 < 10) := by
  refine ⟨by decide, ?_, ?_, by norm_num⟩
  · have h : parseDecimal "9.5"
        = some (((9 : ℕ) : ℚ) + ((5 : ℕ) : ℚ) / (10 : ℚ) ^ (1 : ℕ)) := rfl
    rw [h]; norm_num
  · have h : parseDecimal "10.0"
        = some (((10 : ℕ) : ℚ) + ((0 : ℕ) : ℚ) / (10 : ℚ) ^ (1 : ℕ)) := rfl
    rw [h]; norm_num

/-- C5 (amended): convert_dataset keeps exactly the pairs whose caption
has length at most 40; every caption in its output has length equal to
the longest kept caption length (which is at most 40, but need not be
40), and each output row is the original caption followed only by padding
zeros. -/
theorem C5_convert_dataset_amended (dataset : List (ℕ × List ℕ)) :
    (convert_dataset dataset).1
      = (dataset.filter (fun p => p.2.length ≤ 40)).map Prod.fst
    ∧ (convert_dataset dataset).2
      = (keptCaptions dataset).map
          (fun s => s ++ List.replicate (padWidth dataset - s.length) 0)
    ∧ ((convert_dataset dataset).2).map List.length
      = List.replicate (keptCaptions dataset).length (padWidth dataset)
    ∧ padWidth dataset ≤ 40 := by
  refine ⟨rfl, rfl, ?_, ?_⟩
  · have h2 : (convert_dataset dataset).2
        = (keptCaptions dataset).map
            (fun s => s ++ List.replicate (padWidth dataset - s.length) 0) := rfl
    rw [h2]
    apply map_length_pad
    intro s hs
    exact le_foldr_max _ s.length (List.mem_map_of_mem List.length hs)
  · apply foldr_max_le
    intro x hx
    obtain ⟨s, hs, rfl⟩ := List.mem_map.mp hx
    obtain ⟨p, hp, rfl⟩ := List.mem_map.mp hs
    have hf := List.mem_filter.mp hp
    simpa using hf.2

/-- C5 counterexample: for the dataset [(10, [1]), (20, [2, 3])] both
captions are kept, and the output captions are [[1, 0], [2, 3]] of width
2, not 40. -/
theorem C5_counterexample :
    convert_dataset [(10, [1]), (20, [2, 3])] = ([10, 20], [[1, 0], [2, 3]])
    ∧ ¬ (∀ c ∈ (convert_dataset [(10, [1]), (20, [2, 3])]).2, c.length = 40) := by
  decide

/-- C6: loss_function multiplies the per-element cross-entropy vector by
the mask that is 1 where the target token differs from the pad value 0
and 0 where it equals it, and returns the mean of the resulting masked
vector; consequently, on any nonempty batch whose target tokens are all
the pad value, the returned loss is 0, whatever the cross-entropy kernel
returns. -/
theorem C6_loss_masking (ce : ℕ → List ℚ → ℚ) (actual : List ℕ)
    (predicted : List (List ℚ)) :
    loss_function ce actual predicted = masked_ce_mean ce actual predicted
    ∧ (actual ≠ [] → (∀ a ∈ actual, a = 0) →
        loss_function ce actual predicted = 0) := by
  have heq : loss_function ce actual predicted
      = masked_ce_mean ce actual predicted := by
    unfold loss_function masked_ce_mean
    exact congrArg reduce_mean (masked_list_eq ce actual predicted)
  refine ⟨heq, fun hne hz => ?_⟩
  rw [heq]
  unfold masked_ce_mean reduce_mean
  have hzero : ∀ x ∈ (actual.zip predicted).map
      (fun q => if q.1 = 0 then (0 : ℚ) else ce q.1 q.2), x = 0 := by
    intro x hx
    obtain ⟨q, hq, rfl⟩ := List.mem_map.mp hx
    have h1 : q.1 ∈ actual := (List.of_mem_zip hq).1
    simp [hz q.1 h1]
  rw [List.sum_eq_zero hzero, zero_div]

/-- C6 witness: a concrete fully padded batch of two positions yields
loss 0 even though the abstract cross-entropy kernel returns 37
everywhere. -/
theorem C6_witness :
    loss_function (fun _ _ => (37 : ℚ)) [0, 0] [[1], [2]] = 0 :=
  (C6_loss_masking (fun _ _ => (37 : ℚ)) [0, 0] [[1], [2]]).2
    (by decide) (by decide)

/-- C9: the validation step leaves the trainable parameters and the
training metric untouched and only appends the batch loss to the
validation metric; moreover its result is unchanged when the environment
is replaced by one that agrees with it only on training=False behaviour
(decoder, encoder at flag false, cross-entropy kernel, state
initialization), showing every model invocation inside it runs with the
training-mode flag false. -/
theorem C9_validation_frame (env env' : ModelEnv θ φ τ σ)
    (g : GlobalState θ) (inp : φ) (tgt : List (List ℕ)) (s r : ℕ)
    (henc : ∀ q x, env.encoder q x false = env'.encoder q x false)
    (hdec : ∀ q a st e, env.decoder q a st e false = env'.decoder q a st e false)
    (hce : env.ce = env'.ce)
    (hinit : env.init_hidden_states = env'.init_hidden_states) :
    (validation_step env inp tgt s r g).params = g.params
    ∧ (validation_step env inp tgt s r g).train_metric = g.train_metric
    ∧ (validation_step env inp tgt s r g).validation_metric
      = g.validation_metric
        ++ [(decode_loop env g.params (env.encoder g.params inp false) tgt s r false).1
             / (tensorWidth tgt : ℚ)]
    ∧ validation_step env inp tgt s r g = validation_step env' inp tgt s r g := by
  refine ⟨rfl, rfl, rfl, ?_⟩
  simp only [validation_step]
  rw [henc,
    decode_loop_false_congr env env' g.params (env'.encoder g.params inp false)
      tgt s r hdec hce hinit]

/-- C9 witness: the frame theorem applied to a concrete environment,
state and batch. -/
theorem C9_witness :
    (validation_step envTest () [[1, 2]] 3 1 gTest).params = gTest.params
    ∧ (validation_step envTest () [[1, 2]] 3 1 gTest).train_metric = gTest.train_metric
    ∧ (validation_step envTest () [[1, 2]] 3 1 gTest).validation_metric
      = gTest.validation_metric
        ++ [(decode_loop envTest gTest.params (envTest.encoder gTest.params () false)
              [[1, 2]] 3 1 false).1 / (tensorWidth [[1, 2]] : ℚ)]
    ∧ validation_step envTest () [[1, 2]] 3 1 gTest
      = validation_step envTest () [[1, 2]] 3 1 gTest :=
  C9_validation_frame envTest envTest gTest () [[1, 2]] 3 1
    (fun _ _ => rfl) (fun _ _ _ _ => rfl) rfl rfl

/-- C10: for equal-length id and caption tensors, batching with
drop_remainder=True yields only batches of exactly batch_size elements —
whatever order the shuffle produced — and when the input holds fewer than
batch_size pairs the resulting dataset is empty. -/
theorem C10_batching {α β : Type} (image_ids : List α) (captions : List β)
    (shuffle : List (α × β) → List (α × β)) (b : ℕ) (hb : 0 < b)
    (hlen : captions.length = image_ids.length)
    (hshuffle : ∀ l : List (α × β), (shuffle l).length = l.length) :
    (∀ batch ∈ shuffle_slice_dataset image_ids captions shuffle b,
      batch.length = b)
    ∧ (image_ids.length < b →
        shuffle_slice_dataset image_ids captions shuffle b = []) := by
  constructor
  · intro batch hmem
    exact batchDrop_mem_length b ((shuffle (image_ids.zip captions)).length) _
      le_rfl batch hmem
  · intro hlt
    unfold shuffle_slice_dataset
    rw [batchDrop_unfold, if_neg]
    rintro ⟨h0, hble⟩
    rw [hshuffle, List.length_zip] at hble
    omega

/-- C10 witness: three pairs batched with batch size two after a reversal
shuffle give only full batches, and the emptiness clause holds
vacuously. -/
theorem C10_witness :
    (∀ batch ∈ shuffle_slice_dataset [1, 2, 3] [4, 5, 6] List.reverse 2,
      batch.length = 2)
    ∧ (List.length [1, 2, 3] < 2 →
        shuffle_slice_dataset [1, 2, 3] [4, 5, 6] List.reverse 2 = []) :=
  C10_batching [1, 2, 3] [4, 5, 6] List.reverse 2 (by decide) rfl
    (fun l => List.length_reverse l)
